import Mathlib

/-!
# Verification of the News-to-JSON extraction pipeline

Shallow embedding of the RSS disaster-news scraper variants
(`check.py`, `jsonCURR.py`, `jsonDEPRE.py`, `app.py`): gazetteer
construction, keyword-based disaster classification, date
normalization, location resolution, and the per-entry pipeline.
Strings are modelled through their character lists; Python's
`str.lower` is modelled on the ASCII range and `str.strip` removes
the common whitespace characters, which is faithful for the data the
claims exercise.
-/

/-- ASCII lower-casing of one character, the model of Python `str.lower`
applied pointwise. -/
def lowerChar (c : Char) : Char :=
  if 65 ≤ c.toNat ∧ c.toNat ≤ 90 then Char.ofNat (c.toNat + 32) else c

/-- Whitespace test used by Python `str.strip` (space, tab, LF, VT, FF, CR). -/
def isWS (c : Char) : Bool :=
  c.toNat == 32 || c.toNat == 9 || c.toNat == 10 ||
  c.toNat == 11 || c.toNat == 12 || c.toNat == 13

/-- Strip leading and trailing whitespace from a character list
(model of Python `str.strip`). -/
def stripL (l : List Char) : List Char :=
  ((l.dropWhile isWS).reverse.dropWhile isWS).reverse

/-- Model of Python `str.lower`. -/
def lowerStr (s : String) : String :=
  ⟨s.data.map lowerChar⟩

/-- Model of Python `str.strip`. -/
def stripStr (s : String) : String :=
  ⟨stripL s.data⟩

/-- Does `hay` start with `needle`? -/
def startsWithL : List Char → List Char → Bool
  | [], _ => true
  | _ :: _, [] => false
  | a :: as, b :: bs => a == b && startsWithL as bs

/-- Contiguous-substring containment: the model of Python's
`needle in hay` on strings. -/
def hasSub (needle : List Char) : List Char → Bool
  | [] => startsWithL needle []
  | c :: t => startsWithL needle (c :: t) || hasSub needle t

section CharLemmas

theorem charOfNat_toNat {n : Nat} (h : n < 55296) : (Char.ofNat n).toNat = n := by
  have hv : n.isValidChar := Or.inl h
  simp [Char.ofNat, hv, Char.ofNatAux, Char.toNat, UInt32.toNat]

theorem lowerChar_toNat_of_upper {c : Char} (h : 65 ≤ c.toNat ∧ c.toNat ≤ 90) :
    (lowerChar c).toNat = c.toNat + 32 := by
  unfold lowerChar
  rw [if_pos h]
  exact charOfNat_toNat (by omega)

theorem lowerChar_of_not_upper {c : Char} (h : ¬(65 ≤ c.toNat ∧ c.toNat ≤ 90)) :
    lowerChar c = c := by
  unfold lowerChar
  rw [if_neg h]

theorem isWS_lowerChar (c : Char) : isWS (lowerChar c) = isWS c := by
  by_cases h : 65 ≤ c.toNat ∧ c.toNat ≤ 90
  · have h1 : (lowerChar c).toNat = c.toNat + 32 := lowerChar_toNat_of_upper h
    unfold isWS
    rw [h1]
    have h2 : ∀ m : Nat, 65 ≤ m → m ≤ 122 →
        ((m == 32 || m == 9 || m == 10 || m == 11 || m == 12 || m == 13) = false) := by
      intro m hm1 hm2
      simp only [Bool.or_eq_false_iff, beq_eq_false_iff_ne, ne_eq]
      omega
    rw [h2 _ (by omega) (by omega), h2 _ (by omega) (by omega)]
  · rw [lowerChar_of_not_upper h]

theorem lowerChar_idem (c : Char) : lowerChar (lowerChar c) = lowerChar c := by
  by_cases h : 65 ≤ c.toNat ∧ c.toNat ≤ 90
  · have h1 : (lowerChar c).toNat = c.toNat + 32 := lowerChar_toNat_of_upper h
    exact lowerChar_of_not_upper (by omega)
  · rw [lowerChar_of_not_upper h]
    exact lowerChar_of_not_upper h

end CharLemmas

section StripLemmas

theorem dropWhile_self (p : α → Bool) (l : List α) :
    (l.dropWhile p).dropWhile p = l.dropWhile p := by
  induction l with
  | nil => rfl
  | cons a t ih =>
    by_cases h : p a
    · simp [List.dropWhile_cons, h, ih]
    · simp [List.dropWhile_cons, h]

theorem dropWhile_head_false (p : α → Bool) (l : List α) :
    l.dropWhile p = [] ∨ ∃ a t, l.dropWhile p = a :: t ∧ p a = false := by
  induction l with
  | nil => exact Or.inl rfl
  | cons a t ih =>
    by_cases h : p a
    · simpa [List.dropWhile_cons, h] using ih
    · exact Or.inr ⟨a, t, by simp [List.dropWhile_cons, h], by simpa using h⟩

theorem stripL_idem (l : List Char) : stripL (stripL l) = stripL l := by
  unfold stripL
  set A := l.dropWhile isWS with hA
  set B := A.reverse.dropWhile isWS with hB
  have hBB : B.dropWhile isWS = B := dropWhile_self _ _
  have hF1 : B.reverse.dropWhile isWS = B.reverse := by
    obtain ⟨pre, hpre⟩ := List.dropWhile_suffix (l := A.reverse) isWS
    rw [← hB] at hpre
    have hA2 : A = B.reverse ++ pre.reverse := by
      have h3 := congrArg List.reverse hpre
      rw [List.reverse_append, List.reverse_reverse] at h3
      exact h3.symm
    cases hBR : B.reverse with
    | nil => simp
    | cons x xs =>
      have hx : isWS x = false := by
        rcases dropWhile_head_false isWS l with h4 | ⟨a, t, h4, ha⟩
        · rw [← hA] at h4
          rw [h4, hBR] at hA2
          simp at hA2
        · rw [← hA] at h4
          rw [h4, hBR] at hA2
          have : a = x := (List.cons.injEq _ _ _ _ ▸ hA2).1
          rw [← this]
          exact ha
      simp [List.dropWhile_cons, hx]
  rw [hF1, List.reverse_reverse, hBB]

theorem dropWhile_isWS_map_lower (l : List Char) :
    (l.map lowerChar).dropWhile isWS = (l.dropWhile isWS).map lowerChar := by
  rw [List.dropWhile_map]
  have hfe : isWS ∘ lowerChar = isWS := by
    funext c
    simp only [Function.comp_apply]
    exact isWS_lowerChar c
  rw [hfe]

theorem stripL_map_lower (l : List Char) :
    stripL (l.map lowerChar) = (stripL l).map lowerChar := by
  unfold stripL
  rw [dropWhile_isWS_map_lower, ← List.map_reverse, dropWhile_isWS_map_lower,
    List.map_reverse]

theorem map_lower_idem (l : List Char) :
    (l.map lowerChar).map lowerChar = l.map lowerChar := by
  rw [List.map_map]
  have hfe : lowerChar ∘ lowerChar = lowerChar := by
    funext c
    simp only [Function.comp_apply]
    exact lowerChar_idem c
  rw [hfe]

end StripLemmas

/-! ## Disaster keyword vocabularies -/

/-- `DisasterRSSNewsScraper.DISASTER_KEYWORDS` from `jsonCURR.py`. -/
def DISASTER_KEYWORDS_CURR : List String :=
  ["earthquake", "seismic", "tremor",
   "tsunami", "tidal wave",
   "hurricane", "cyclone", "typhoon", "tropical storm",
   "tornado", "twister",
   "flood", "flooding", "river overflow",
   "landslide", "mudslide", "debris flow",
   "volcanic eruption", "lava flow", "ash cloud",
   "wildfire", "bushfire", "forest fire",
   "avalanche", "snow slide",
   "drought", "water scarcity",
   "heatwave", "extreme heat",
   "blizzard", "snowstorm", "ice storm",
   "emergency", "state of emergency",
   "rescue", "evacuation", "displacement",
   "relief efforts", "humanitarian aid",
   "damage assessment",
   "warning", "alert", "advisory",
   "widespread damage", "destruction", "casualties",
   "missing persons", "search and rescue"]

/-- `DisasterRSSNewsScraper.DISASTER_KEYWORDS` from `check.py`. -/
def DISASTER_KEYWORDS_CHECK : List String :=
  ["earthquake", "tsunami", "hurricane", "tornado",
   "flood", "cyclone", "landslide", "volcanic eruption",
   "wildfire", "storm", "avalanche", "drought",
   "natural disaster", "emergency", "rescue", "evacuation"]

/-- One keyword test: Python `keyword in text.lower()`. -/
def kwInText (text kw : String) : Bool :=
  hasSub kw.data (lowerStr text).data

/-- `_is_disaster_related` from `jsonCURR.py`:
`any(keyword in text_lower for keyword in self.DISASTER_KEYWORDS)`. -/
def is_disaster_related_CURR (text : String) : Bool :=
  DISASTER_KEYWORDS_CURR.any (fun kw => kwInText text kw)

/-- `_is_disaster_related` from `check.py`. -/
def is_disaster_related_check (text : String) : Bool :=
  DISASTER_KEYWORDS_CHECK.any (fun kw => kwInText text kw)

/-- The `disaster_keywords` list built in `jsonCURR.py`'s `_fetch_feed`:
`[keyword for keyword in self.DISASTER_KEYWORDS if keyword in combined_text.lower()]`. -/
def matched_keywords_CURR (text : String) : List String :=
  DISASTER_KEYWORDS_CURR.filter (fun kw => kwInText text kw)

/-- The `disaster_keywords` list built in `check.py`'s `_fetch_feed`. -/
def matched_keywords_check (text : String) : List String :=
  DISASTER_KEYWORDS_CHECK.filter (fun kw => kwInText text kw)

/-! ## Location resolution

`_extract_locations` first asks the NLP model for lower-cased GPE
entities; that NER stage is an external collaborator and is modelled
as an input set of candidate strings.  The resolution step against
the gazetteer is embedded from each source variant.  A Python `set`
has no fixed iteration order, so `list(matched)` is modelled by the
finite set of its members. -/

/-- `_extract_locations` from `check.py` / `jsonDEPRE.py`, after the NER
stage: `matched = cities.intersection(ner); list(matched) if matched
else ['Unknown']`. -/
def extract_locations_check (cities nerLocations : Finset String) : Finset String :=
  let matched := cities ∩ nerLocations
  if matched.Nonempty then matched else {"Unknown"}

/-- `_extract_locations` from `jsonCURR.py`, after the NER stage: three
component match sets (`matched_cities`, `matched_states`,
`matched_countries`) are unioned before the sentinel test. -/
def extract_locations_CURR (cities nerLocations : Finset String) : Finset String :=
  let matched_cities := cities ∩ nerLocations
  let matched_states := nerLocations.filter (fun state => state ∈ cities)
  let matched_countries := nerLocations.filter (fun country => country ∈ cities)
  let all_matches := matched_cities ∪ matched_states ∪ matched_countries
  if all_matches.Nonempty then all_matches else {"Unknown"}

/-- `_extract_locations` from `app.py`, after the NER stage.  The source
joins the matches with `', '` in unspecified set order, or returns
`'Unknown'`; the set of matched members is retained here. -/
def extract_locations_app (cities nerLocations : Finset String) : Finset String :=
  let matched := cities ∩ nerLocations
  if matched.Nonempty then matched else {"Unknown"}

/-! ## Gazetteer construction -/

/-- A reference table: an association of column names to column values,
with missing cells as `none` (the model of a pandas `DataFrame`). -/
abbrev RefTable : Type := List (String × List (Option String))

/-- The non-missing values of one named column (`df[col].dropna()`);
a column absent from the table contributes nothing. -/
def colVals (table : RefTable) (col : String) : List String :=
  match List.lookup col table with
  | some vals => vals.filterMap id
  | none => []

/-- `_load_cities` from `jsonCURR.py` (table-processing part): columns
`City` and `State`, each value stripped then lower-cased
(`.dropna().str.strip().str.lower()`), merged into one set. -/
def load_cities_CURR (table : RefTable) : Finset String :=
  (((colVals table "City").map (fun v => lowerStr (stripStr v))).toFinset ∪
   ((colVals table "State").map (fun v => lowerStr (stripStr v))).toFinset)

/-- `_load_cities` from `app.py` (table-processing part): columns `name`
and `subcountry`, each value lower-cased only (`.dropna().str.lower()`,
no strip), merged into one set. -/
def load_cities_app_table (table : RefTable) : Finset String :=
  (((colVals table "name").map (fun v => lowerStr v)).toFinset ∪
   ((colVals table "subcountry").map (fun v => lowerStr v)).toFinset)

/-- `_load_cities` from `check.py` (table-processing part): columns
`name`, `country` and `subcountry`, each value lower-cased only. -/
def load_cities_check_table (table : RefTable) : Finset String :=
  (((colVals table "name").map (fun v => lowerStr v)).toFinset ∪
   ((colVals table "country").map (fun v => lowerStr v)).toFinset ∪
   ((colVals table "subcountry").map (fun v => lowerStr v)).toFinset)

/-- Outcome of reading the reference CSV, the model of `pd.read_csv`:
either a parsed table, or the exceptions the sources distinguish
(`FileNotFoundError`, `pd.errors.EmptyDataError`, anything else). -/
inductive ReadResult where
  | ok (table : RefTable)
  | fileNotFound
  | emptyFile
  | otherError
deriving DecidableEq

/-- `_load_cities` from `check.py`, with its exception handlers: a
`FileNotFoundError` and any other exception both yield the empty set. -/
def load_cities_check : ReadResult → Finset String
  | ReadResult.ok table => load_cities_check_table table
  | ReadResult.fileNotFound => ∅
  | ReadResult.emptyFile => ∅
  | ReadResult.otherError => ∅

/-- `_load_cities` from `app.py`, with its `except Exception` handler. -/
def load_cities_app : ReadResult → Finset String
  | ReadResult.ok table => load_cities_app_table table
  | ReadResult.fileNotFound => ∅
  | ReadResult.emptyFile => ∅
  | ReadResult.otherError => ∅

/-- `_load_cities` from `jsonDEPRE.py`: catches `EmptyDataError` and any
other exception, yielding the empty set.  (Columns `name`, `country`,
`subcountry`, lower-cased only, as in `check.py`.) -/
def load_cities_DEPRE : ReadResult → Finset String
  | ReadResult.ok table => load_cities_check_table table
  | ReadResult.fileNotFound => ∅
  | ReadResult.emptyFile => ∅
  | ReadResult.otherError => ∅

/-- `RSSNewsScraper.__init__` from `jsonDEPRE.py`: raises
`FileNotFoundError` when `os.path.exists(cities_file)` is false, before
any loading happens; otherwise stores `_load_cities`'s result. -/
def init_DEPRE (fileExists : Bool) (r : ReadResult) : Except String (Finset String) :=
  if fileExists then Except.ok (load_cities_DEPRE r)
  else Except.error "FileNotFoundError"

/-- `__init__` from `jsonCURR.py`: `_load_cities` has no exception
handler there, so a read failure propagates to the caller. -/
def init_CURR (r : ReadResult) : Except String (Finset String) :=
  match r with
  | ReadResult.ok table => Except.ok (load_cities_CURR table)
  | ReadResult.fileNotFound => Except.error "FileNotFoundError"
  | ReadResult.emptyFile => Except.error "EmptyDataError"
  | ReadResult.otherError => Except.error "Exception"

/-! ## Date normalization

`_parse_date` calls
`datetime.strptime(date_str.strip(), '%a, %d %b %Y %H:%M:%S %z')`
and on success formats with `'%Y-%m-%d %H:%M:%S'`; any exception
falls back to the raw input.  The parser below embeds CPython
`strptime`'s behaviour on that fixed format: each whitespace run in
the format matches one or more whitespace characters in the input
(`strptime` compiles it to a `\s+` regex), abbreviated names match
case-insensitively, `%d`/`%H`/`%M`/`%S` take one or two digits
greedily, `%Y` takes exactly four digits, `%z` accepts `Z`, `±HHMM`,
`±HH:MM`, `±HHMMSS` and `±HH:MM:SS` with an optional fraction of one
to six digits after the seconds (mixed colon use fails, as in
`strptime`'s post-processing), the whole input must be consumed, and
the range checks of the `datetime` and `timezone` constructors run
afterwards.  Values the `strptime` regex itself refuses (day 32, hour
25, ...) also fail these checks with the same observable fallback,
since the token that follows each numeric field can never consume a
leftover digit. -/

structure DateFields where
  year : Nat
  month : Nat
  day : Nat
  hour : Nat
  minute : Nat
  second : Nat
  offNeg : Bool
  offSec : Nat
deriving DecidableEq

def isDigitC (c : Char) : Bool := 48 ≤ c.toNat && c.toNat ≤ 57

def digitVal (c : Char) : Nat := c.toNat - 48

def natOfDigits (ds : List Char) : Nat :=
  ds.foldl (fun a c => a * 10 + digitVal c) 0

/-- Read one to `maxLen` digits greedily, as `strptime`'s two-digit
numeric directives. -/
def parseNum (maxLen : Nat) (l : List Char) : Option (Nat × List Char) :=
  let ds := (l.take maxLen).takeWhile isDigitC
  if ds.isEmpty then none else some (natOfDigits ds, l.drop ds.length)

/-- Read exactly `k` digits, as `strptime`'s `%Y` (four digits). -/
def parseNumExact (k : Nat) (l : List Char) : Option (Nat × List Char) :=
  let ds := (l.take k).takeWhile isDigitC
  if ds.length = k then some (natOfDigits ds, l.drop k) else none

/-- Match one abbreviated name from `names` case-insensitively,
returning its index. -/
def parseNameIdx : List String → Nat → List Char → Option (Nat × List Char)
  | [], _, _ => none
  | n :: rest, i, l =>
    let k := n.data.length
    if (l.take k).map lowerChar == n.data then some (i, l.drop k)
    else parseNameIdx rest (i + 1) l

def weekdayAbbrevs : List String :=
  ["mon", "tue", "wed", "thu", "fri", "sat", "sun"]

def monthAbbrevs : List String :=
  ["jan", "feb", "mar", "apr", "may", "jun",
   "jul", "aug", "sep", "oct", "nov", "dec"]

def expectChar (c : Char) : List Char → Option (List Char)
  | x :: rest => if x == c then some rest else none
  | [] => none

/-- One or more whitespace characters: the `\s+` that `strptime`
compiles every whitespace run of the format string into. -/
def parseWS : List Char → Option (List Char)
  | [] => none
  | c :: rest => if isWS c then some (rest.dropWhile isWS) else none

/-- The optional fraction of a `%z` offset: a dot and one to six
digits after the seconds, consumed but never retained (it cannot
reach the output).  A dot not followed by a digit is left in place
for the caller's full-consumption check to reject. -/
def dropFrac (l : List Char) : List Char :=
  match l with
  | '.' :: rest =>
    let ds := (rest.take 6).takeWhile isDigitC
    if ds.isEmpty then l else rest.drop ds.length
  | _ => l

/-- CPython's `%z` (`[+-]\d\d:?[0-5]\d(:?[0-5]\d(\.\d{1,6})?)?|Z`):
the exact letter `Z`, or a sign, two hour digits and two minute
digits (minutes `00`-`59`), optionally followed by two second digits
(`00`-`59`) and a fraction, where the two colons are either both
present or both absent (`strptime`'s post-processing raises on mixed
use).  Returns
the sign and the absolute offset in seconds; input that stops
matching partway is left unconsumed so that the caller's
full-consumption check fails, as `strptime`'s own
"unconverted data remains" error does. -/
def parseOffset (l : List Char) : Option (Bool × Nat × List Char) :=
  match l with
  | [] => none
  | c :: rest =>
    if c == 'Z' then some (false, 0, rest)
    else if c == '+' || c == '-' then
      let neg := c == '-'
      match rest with
      | a :: b :: r2 =>
        if isDigitC a && isDigitC b then
          let hh := digitVal a * 10 + digitVal b
          match r2 with
          | ':' :: m1 :: m2 :: r3 =>
            if isDigitC m1 && digitVal m1 ≤ 5 && isDigitC m2 then
              let mm := digitVal m1 * 10 + digitVal m2
              match r3 with
              | ':' :: s1 :: s2 :: r4 =>
                if isDigitC s1 && digitVal s1 ≤ 5 && isDigitC s2 then
                  some (neg, hh * 3600 + mm * 60 + (digitVal s1 * 10 + digitVal s2),
                    dropFrac r4)
                else some (neg, hh * 3600 + mm * 60, r3)
              | _ => some (neg, hh * 3600 + mm * 60, r3)
            else none
          | m1 :: m2 :: r3 =>
            if isDigitC m1 && digitVal m1 ≤ 5 && isDigitC m2 then
              let mm := digitVal m1 * 10 + digitVal m2
              match r3 with
              | s1 :: s2 :: r4 =>
                if isDigitC s1 && digitVal s1 ≤ 5 && isDigitC s2 then
                  some (neg, hh * 3600 + mm * 60 + (digitVal s1 * 10 + digitVal s2),
                    dropFrac r4)
                else some (neg, hh * 3600 + mm * 60, r3)
              | _ => some (neg, hh * 3600 + mm * 60, r3)
            else none
          | _ => none
        else none
      | _ => none
    else none

def isLeap (y : Nat) : Bool := (y % 4 == 0 && y % 100 != 0) || y % 400 == 0

def daysInMonth (y mo : Nat) : Nat :=
  if mo == 2 then (if isLeap y then 29 else 28)
  else if mo == 4 || mo == 6 || mo == 9 || mo == 11 then 30
  else 31

/-- `strptime(raw.strip(), '%a, %d %b %Y %H:%M:%S %z')` followed by the
range checks of the `datetime` and `timezone` constructors (year in
`MINYEAR..MAXYEAR`, day valid for the month, clock fields in range,
offset strictly below 24 hours). -/
def parseRFC822 (raw : String) : Option DateFields :=
  let l0 := stripL raw.data
  match parseNameIdx weekdayAbbrevs 0 l0 with
  | none => none
  | some (_, l1) =>
  match expectChar ',' l1 with
  | none => none
  | some l2 =>
  match parseWS l2 with
  | none => none
  | some l3 =>
  match parseNum 2 l3 with
  | none => none
  | some (d, l4) =>
  match parseWS l4 with
  | none => none
  | some l5 =>
  match parseNameIdx monthAbbrevs 0 l5 with
  | none => none
  | some (moIdx, l6) =>
  match parseWS l6 with
  | none => none
  | some l7 =>
  match parseNumExact 4 l7 with
  | none => none
  | some (y, l8) =>
  match parseWS l8 with
  | none => none
  | some l9 =>
  match parseNum 2 l9 with
  | none => none
  | some (h, l10) =>
  match expectChar ':' l10 with
  | none => none
  | some l11 =>
  match parseNum 2 l11 with
  | none => none
  | some (mi, l12) =>
  match expectChar ':' l12 with
  | none => none
  | some l13 =>
  match parseNum 2 l13 with
  | none => none
  | some (s, l14) =>
  match parseWS l14 with
  | none => none
  | some l15 =>
  match parseOffset l15 with
  | none => none
  | some (neg, offSec, l16) =>
    let mo := moIdx + 1
    if l16.isEmpty &&
       (1 ≤ y && y ≤ 9999) &&
       (1 ≤ d && d ≤ daysInMonth y mo) &&
       (h ≤ 23 && mi ≤ 59 && s ≤ 59) &&
       offSec ≤ 86399 then
      some ⟨y, mo, d, h, mi, s, neg, offSec⟩
    else none

def pad2 (n : Nat) : String :=
  if n < 10 then "0" ++ toString n else toString n

/-- `strftime('%Y-%m-%d %H:%M:%S')`: the clock fields only, the offset
is dropped.  glibc's `%Y` prints the year unpadded (year 1 gives
`"1"`), while the two-digit fields are zero-padded. -/
def formatClock (f : DateFields) : String :=
  toString f.year ++ "-" ++ pad2 f.month ++ "-" ++ pad2 f.day ++ " " ++
  pad2 f.hour ++ ":" ++ pad2 f.minute ++ ":" ++ pad2 f.second

/-- `_parse_date` (identical in `check.py`, `jsonCURR.py`, `app.py`,
`jsonDEPRE.py`): format on success, the raw string verbatim on any
failure.  Total: no exception reaches the caller. -/
def parse_date (raw : String) : String :=
  match parseRFC822 raw with
  | some f => formatClock f
  | none => raw


/-! ## Feed entries and per-entry processing

A raw feed entry as produced by the external XML parser: each
`entry.find(tag)` either yields an element with text or `None`.
The NER stage (`self.nlp` plus GPE filtering and lower-casing) is an
external collaborator, modelled as a function from the combined text
to the candidate set. -/

structure RawEntry where
  title : Option String
  description : Option String
  link : Option String
  pubDate : Option String
deriving DecidableEq

/-- Output record shape of `check.py` / `jsonCURR.py`. -/
structure DisasterItem where
  title : String
  date : String
  description : String
  link : String
  locations : Finset String
  source : String
  disaster_keywords : List String
deriving DecidableEq

/-- Output record shape of `app.py` (its `Location` is the joined
string; the match set is retained, see `extract_locations_app`). -/
structure AppItem where
  itemTitle : String
  itemDate : String
  itemDescription : String
  itemLink : String
  itemLocation : Finset String
  itemSource : String
deriving DecidableEq

/-- One loop iteration of `app.py`'s `_fetch_feed`: the fields are read
in source order (`title`, `description`, `link`, `pubDate`); a missing
element raises `AttributeError`, which the per-entry handler turns
into `continue` (`none` here).  There is no disaster filter. -/
def processEntry_app (ner : String → Finset String) (cities : Finset String)
    (url : String) (e : RawEntry) : Option AppItem :=
  match e.title with
  | none => none
  | some t =>
  match e.description with
  | none => none
  | some d =>
  match e.link with
  | none => none
  | some lk =>
  match e.pubDate with
  | none => none
  | some pd =>
    let title := stripStr t
    let description := stripStr d
    let combined := title ++ " " ++ description
    some { itemTitle := title
           itemDate := parse_date pd
           itemDescription := description
           itemLink := stripStr lk
           itemLocation := extract_locations_app cities (ner combined)
           itemSource := url }

/-- `app.py`'s `_fetch_feed` over an already-fetched batch of entries:
in input order, skipping entries whose field access raised. -/
def fetchFeed_app (ner : String → Finset String) (cities : Finset String)
    (url : String) (entries : List RawEntry) : List AppItem :=
  entries.filterMap (processEntry_app ner cities url)

/-- One loop iteration of `jsonCURR.py`'s `_fetch_feed`: `title` and
`description` are read first (missing → `AttributeError` → `continue`),
the disaster filter runs on the combined text, and only a relevant
entry reads `pubDate` and `link` (missing → skip). -/
def processEntry_CURR (ner : String → Finset String) (cities : Finset String)
    (url : String) (e : RawEntry) : Option DisasterItem :=
  match e.title with
  | none => none
  | some t =>
  match e.description with
  | none => none
  | some d =>
    let title := stripStr t
    let description := stripStr d
    let combined := title ++ " " ++ description
    if is_disaster_related_CURR combined then
      match e.pubDate with
      | none => none
      | some pd =>
      match e.link with
      | none => none
      | some lk =>
        some { title := title
               date := parse_date pd
               description := description
               link := stripStr lk
               locations := extract_locations_CURR cities (ner combined)
               source := url
               disaster_keywords := matched_keywords_CURR combined }
    else none

/-- `jsonCURR.py`'s `_fetch_feed` over a batch of entries. -/
def fetchFeed_CURR (ner : String → Finset String) (cities : Finset String)
    (url : String) (entries : List RawEntry) : List DisasterItem :=
  entries.filterMap (processEntry_CURR ner cities url)

/-- One loop iteration of `check.py`'s `_fetch_feed`: every field is
defaulted to `''` when absent (`entry.find(x).text.strip() if
entry.find(x) else ''`), so no entry is ever skipped for a missing
field; the disaster filter then decides whether a record is emitted. -/
def processEntry_check (ner : String → Finset String) (cities : Finset String)
    (url : String) (e : RawEntry) : Option DisasterItem :=
  let title := (e.title.map stripStr).getD ""
  let description := (e.description.map stripStr).getD ""
  let pub_date := (e.pubDate.map stripStr).getD ""
  let link := (e.link.map stripStr).getD ""
  let combined := title ++ " " ++ description
  if is_disaster_related_check combined then
    some { title := title
           date := parse_date pub_date
           description := description
           link := link
           locations := extract_locations_check cities (ner combined)
           source := url
           disaster_keywords := matched_keywords_check combined }
  else none

/-- `check.py`'s `_fetch_feed` over a batch of entries. -/
def fetchFeed_check (ner : String → Finset String) (cities : Finset String)
    (url : String) (entries : List RawEntry) : List DisasterItem :=
  entries.filterMap (processEntry_check ner cities url)

/-! ## Claim theorems -/

theorem DISASTER_KEYWORDS_CURR_nodup : DISASTER_KEYWORDS_CURR.Nodup := by decide

theorem DISASTER_KEYWORDS_CHECK_nodup : DISASTER_KEYWORDS_CHECK.Nodup := by decide

/-- C1: for every candidate set `C` of lower-cased NER entity strings
and every gazetteer `G`, the location resolver (`_extract_locations`
of `check.py` / `jsonDEPRE.py`, after the NER stage) returns the
singleton `{"Unknown"}` iff `C ∩ G` is empty; otherwise it returns
exactly the intersection; and it never returns the empty set. -/
theorem claim_C1_resolve (C G : Finset String)
    (hlow : ∀ s ∈ C, lowerStr s = s) :
    (extract_locations_check G C = {"Unknown"} ↔ C ∩ G = ∅) ∧
    (C ∩ G ≠ ∅ → extract_locations_check G C = C ∩ G) ∧
    extract_locations_check G C ≠ ∅ := by
  have hUnk : "Unknown" ∉ C := by
    intro hmem
    have h1 : lowerStr "Unknown" = "Unknown" := hlow _ hmem
    exact absurd h1 (by decide)
  unfold extract_locations_check
  by_cases hne : (G ∩ C).Nonempty
  · rw [if_pos hne]
    refine ⟨⟨?_, ?_⟩, ?_, ?_⟩
    · intro heq
      exfalso
      have h2 : "Unknown" ∈ G ∩ C := heq ▸ Finset.mem_singleton_self _
      exact hUnk (Finset.mem_inter.1 h2).2
    · intro hempty
      exfalso
      rw [Finset.inter_comm] at hempty
      exact Finset.not_nonempty_empty (hempty ▸ hne)
    · intro _
      exact Finset.inter_comm G C
    · exact Finset.nonempty_iff_ne_empty.1 hne
  · rw [if_neg hne]
    have hempty : G ∩ C = ∅ := Finset.not_nonempty_iff_eq_empty.1 hne
    refine ⟨⟨fun _ => ?_, fun _ => rfl⟩, fun hne2 => ?_, ?_⟩
    · rw [Finset.inter_comm]
      exact hempty
    · exact absurd (Finset.inter_comm C G ▸ hempty) hne2
    · exact Finset.singleton_ne_empty _
  
theorem claim_C1_resolve_witness :
    (∀ s ∈ ({"paris"} : Finset String), lowerStr s = s) ∧
    ((extract_locations_check {"paris", "goa"} {"paris"} = {"Unknown"} ↔
        ({"paris"} : Finset String) ∩ {"paris", "goa"} = ∅) ∧
     (({"paris"} : Finset String) ∩ {"paris", "goa"} ≠ ∅ →
        extract_locations_check {"paris", "goa"} {"paris"} =
          ({"paris"} : Finset String) ∩ {"paris", "goa"}) ∧
     extract_locations_check {"paris", "goa"} {"paris"} ≠ ∅) :=
  ⟨by decide, claim_C1_resolve {"paris"} {"paris", "goa"} (by decide)⟩

/-- C2: the relevance verdict of `jsonCURR.py`'s classifier agrees with
its matched-keyword list: `_is_disaster_related` is `true` iff the
`disaster_keywords` comprehension is non-empty (both run the same
case-insensitive substring test over the same vocabulary). -/
theorem claim_C2_relevance (text : String) :
    is_disaster_related_CURR text = true ↔ matched_keywords_CURR text ≠ [] := by
  unfold is_disaster_related_CURR matched_keywords_CURR
  rw [List.any_eq_true]
  constructor
  · rintro ⟨kw, hmem, hkw⟩ hnil
    have h1 : kw ∈ DISASTER_KEYWORDS_CURR.filter (fun kw => kwInText text kw) :=
      List.mem_filter.2 ⟨hmem, hkw⟩
    rw [hnil] at h1
    exact absurd h1 (List.not_mem_nil _)
  · intro hne
    obtain ⟨kw, hmem⟩ := List.exists_mem_of_ne_nil _ hne
    have h1 := List.mem_filter.1 hmem
    exact ⟨kw, h1.1, h1.2⟩

/-- C3: the matched-keyword list is exactly the vocabulary entries that
occur as case-insensitive substrings of the text, in vocabulary
declaration order (a sublist of the vocabulary), each at most once,
for both the `jsonCURR.py` and the `check.py` vocabularies. -/
theorem claim_C3_matched_keywords (text : String) :
    ((matched_keywords_CURR text).Sublist DISASTER_KEYWORDS_CURR ∧
     (matched_keywords_CURR text).Nodup ∧
     (∀ kw, kw ∈ matched_keywords_CURR text ↔
        kw ∈ DISASTER_KEYWORDS_CURR ∧ kwInText text kw = true)) ∧
    ((matched_keywords_check text).Sublist DISASTER_KEYWORDS_CHECK ∧
     (matched_keywords_check text).Nodup ∧
     (∀ kw, kw ∈ matched_keywords_check text ↔
        kw ∈ DISASTER_KEYWORDS_CHECK ∧ kwInText text kw = true)) := by
  refine ⟨⟨List.filter_sublist _, DISASTER_KEYWORDS_CURR_nodup.filter _, fun kw => ?_⟩,
          ⟨List.filter_sublist _, DISASTER_KEYWORDS_CHECK_nodup.filter _, fun kw => ?_⟩⟩
  · unfold matched_keywords_CURR
    rw [List.mem_filter]
  · unfold matched_keywords_check
    rw [List.mem_filter]

/-- C10: `jsonCURR.py`'s three-way location extraction (union of
`matched_cities`, `matched_states`, `matched_countries`) is
extensionally equal to the plain single-intersection resolver of the
other variants, with the same `Unknown` fallback. -/
theorem claim_C10_refinement (cities nerLocations : Finset String) :
    extract_locations_CURR cities nerLocations =
      extract_locations_check cities nerLocations := by
  unfold extract_locations_CURR extract_locations_check
  have hfilter : nerLocations.filter (fun s => s ∈ cities) = cities ∩ nerLocations := by
    rw [Finset.filter_mem_eq_inter, Finset.inter_comm]
  rw [hfilter]
  simp only [Finset.union_self]

/-- C4: on any raw string the fixed-format parser accepts, `_parse_date`
returns `YYYY-MM-DD HH:MM:SS` built from the parsed clock fields, the
timezone offset being consumed for parsing but absent from the
output. -/
theorem claim_C4_date_success (raw : String) (f : DateFields)
    (h : parseRFC822 raw = some f) : parse_date raw = formatClock f := by
  unfold parse_date
  rw [h]

theorem claim_C4_date_success_witness :
    parse_date "Mon, 02 Jan 2023 15:04:05 +0000" =
      formatClock ⟨2023, 1, 2, 15, 4, 5, false, 0⟩ ∧
    formatClock ⟨2023, 1, 2, 15, 4, 5, false, 0⟩ = "2023-01-02 15:04:05" ∧
    parse_date "Tue,  10 Oct 2023 08:00:00 Z" =
      formatClock ⟨2023, 10, 10, 8, 0, 0, false, 0⟩ ∧
    parse_date "Tue, 10 Oct 2023 08:00:00 +053030" =
      formatClock ⟨2023, 10, 10, 8, 0, 0, false, 19830⟩ :=
  ⟨claim_C4_date_success "Mon, 02 Jan 2023 15:04:05 +0000"
      ⟨2023, 1, 2, 15, 4, 5, false, 0⟩ (by decide), by decide,
   claim_C4_date_success "Tue,  10 Oct 2023 08:00:00 Z"
      ⟨2023, 10, 10, 8, 0, 0, false, 0⟩ (by decide),
   claim_C4_date_success "Tue, 10 Oct 2023 08:00:00 +053030"
      ⟨2023, 10, 10, 8, 0, 0, false, 19830⟩ (by decide)⟩

/-- C5: on any raw string the parser rejects, `_parse_date` returns the
original raw input verbatim (`parse_date` is total, so no exception
reaches the caller). -/
theorem claim_C5_date_fallback (raw : String)
    (h : parseRFC822 raw = none) : parse_date raw = raw := by
  unfold parse_date
  rw [h]

theorem claim_C5_date_fallback_witness :
    parse_date "not-a-date" = "not-a-date" ∧
    parse_date "" = "" ∧
    parse_date "  spaced garbage  " = "  spaced garbage  " ∧
    parse_date "Mon, 02 Jan 23 15:04:05 +0000" = "Mon, 02 Jan 23 15:04:05 +0000" :=
  ⟨claim_C5_date_fallback "not-a-date" (by decide),
   claim_C5_date_fallback "" (by decide),
   claim_C5_date_fallback "  spaced garbage  " (by decide),
   claim_C5_date_fallback "Mon, 02 Jan 23 15:04:05 +0000" (by decide)⟩

/-- The claim that every gazetteer member is whitespace-trimmed fails
for `app.py`'s `_load_cities`, which lower-cases without stripping:
the value `" Paris "` yields the member `" paris "`, which still
carries surrounding whitespace. -/
theorem claim_C6_counterexample :
    " paris " ∈ load_cities_app_table [("name", [some " Paris "])] ∧
    stripStr " paris " ≠ " paris " := by decide

/-- C6 amended: `jsonCURR.py`'s gazetteer builder produces exactly the
non-missing values of its recognized columns (`City`, `State`), each
trimmed then lower-cased, merged into one duplicate-free set, and
every member is a trimmed, lower-cased string.  (The `check.py` /
`app.py` / `jsonDEPRE.py` builders lower-case without trimming.) -/
theorem claim_C6_gazetteer (table : RefTable) :
    (load_cities_CURR table =
      ((colVals table "City" ++ colVals table "State").map
        (fun v => lowerStr (stripStr v))).toFinset) ∧
    ∀ x ∈ load_cities_CURR table, stripStr x = x ∧ lowerStr x = x := by
  have hset : load_cities_CURR table =
      ((colVals table "City" ++ colVals table "State").map
        (fun v => lowerStr (stripStr v))).toFinset := by
    unfold load_cities_CURR
    rw [List.map_append, List.toFinset_append]
  refine ⟨hset, fun x hx => ?_⟩
  rw [hset, List.mem_toFinset, List.mem_map] at hx
  obtain ⟨v, _, hv⟩ := hx
  have hdata : x.data = (stripL v.data).map lowerChar := by
    rw [← hv]
    rfl
  constructor
  · show String.mk (stripL x.data) = x
    rw [hdata, stripL_map_lower, stripL_idem, ← hdata]
  · show String.mk (x.data.map lowerChar) = x
    rw [hdata, map_lower_idem, ← hdata]

theorem claim_C6_gazetteer_witness :
    "paris" ∈ load_cities_CURR [("City", [some " Paris ", none]), ("State", [some "GOA"])] ∧
    (stripStr "paris" = "paris" ∧ lowerStr "paris" = "paris") :=
  ⟨by decide,
   (claim_C6_gazetteer [("City", [some " Paris ", none]), ("State", [some "GOA"])]).2
     "paris" (by decide)⟩

/-- The claim that gazetteer construction never fails on a missing
reference source is refuted by `jsonDEPRE.py`, whose `__init__`
raises `FileNotFoundError` when the cities file does not exist. -/
theorem claim_C7_counterexample :
    init_DEPRE false ReadResult.fileNotFound = Except.error "FileNotFoundError" := rfl

/-- C7 amended: the `check.py` and `app.py` loaders (and `jsonDEPRE.py`'s
loader once the file exists) turn a missing, empty or unreadable
reference source into the empty gazetteer without raising, while
`jsonDEPRE.py`'s constructor raises on a missing file; and against an
empty gazetteer every location resolution yields `{"Unknown"}`. -/
theorem claim_C7_empty_gazetteer :
    (load_cities_check ReadResult.fileNotFound = ∅ ∧
     load_cities_check ReadResult.emptyFile = ∅ ∧
     load_cities_check ReadResult.otherError = ∅) ∧
    (load_cities_app ReadResult.fileNotFound = ∅ ∧
     load_cities_app ReadResult.emptyFile = ∅ ∧
     load_cities_app ReadResult.otherError = ∅) ∧
    (init_DEPRE true ReadResult.emptyFile = Except.ok ∅ ∧
     init_DEPRE true ReadResult.otherError = Except.ok ∅) ∧
    ∀ C : Finset String,
      extract_locations_check ∅ C = {"Unknown"} ∧
      extract_locations_CURR ∅ C = {"Unknown"} ∧
      extract_locations_app ∅ C = {"Unknown"} := by
  refine ⟨⟨rfl, rfl, rfl⟩, ⟨rfl, rfl, rfl⟩, ⟨rfl, rfl⟩, fun C => ?_⟩
  unfold extract_locations_check extract_locations_CURR extract_locations_app
  simp [Finset.empty_inter, Finset.not_nonempty_empty]

/-- The claim that an entry with an absent title is skipped fails for
`check.py`, which substitutes `''` for missing fields and keeps
processing: a batch of one well-formed disaster entry and one
absent-title entry whose description is disaster-related produces two
records, not one. -/
theorem claim_C8_counterexample :
    (fetchFeed_check (fun _ => ∅) ∅ "u"
      [⟨some "Flood alert", some "Rescue teams deployed", some "http://a", some "d1"⟩,
       ⟨none, some "Earthquake hits the region", some "http://b", some "d2"⟩]).length
      = 2 := by decide

/-- C8 amended: `app.py`'s driver processes entries in input order and
is total (no exception escapes); an entry whose `title` element is
absent is skipped while processing continues, so a batch of one
well-formed entry and one absent-title entry yields exactly the one
record of the well-formed entry.  (`check.py` instead substitutes
`''` for absent fields and does not skip, see the counterexample.) -/
theorem claim_C8_driver (ner : String → Finset String) (cities : Finset String)
    (url : String) (e1 e2 : RawEntry) (t d lk pd : String)
    (h1 : e1.title = some t) (h2 : e1.description = some d)
    (h3 : e1.link = some lk) (h4 : e1.pubDate = some pd)
    (h5 : e2.title = none) :
    ∃ r, processEntry_app ner cities url e1 = some r ∧
      fetchFeed_app ner cities url [e1, e2] = [r] := by
  have hp1 : processEntry_app ner cities url e1 =
      some { itemTitle := stripStr t
             itemDate := parse_date pd
             itemDescription := stripStr d
             itemLink := stripStr lk
             itemLocation := extract_locations_app cities
               (ner (stripStr t ++ " " ++ stripStr d))
             itemSource := url } := by
    unfold processEntry_app
    rw [h1, h2, h3, h4]
  have hp2 : processEntry_app ner cities url e2 = none := by
    unfold processEntry_app
    rw [h5]
  refine ⟨_, hp1, ?_⟩
  unfold fetchFeed_app
  rw [List.filterMap_cons, hp1, List.filterMap_cons, hp2, List.filterMap_nil]

theorem claim_C8_driver_witness :
    ∃ r, processEntry_app (fun _ => ∅) ∅ "u"
        ⟨some "a", some "b", some "c", some "d"⟩ = some r ∧
      fetchFeed_app (fun _ => ∅) ∅ "u"
        [⟨some "a", some "b", some "c", some "d"⟩,
         ⟨none, some "x", some "y", some "z"⟩] = [r] :=
  claim_C8_driver (fun _ => ∅) ∅ "u" _ _ "a" "b" "c" "d" rfl rfl rfl rfl rfl

/-- C9: with the disaster filter enabled (the `jsonCURR.py` and
`check.py` drivers), an entry whose fields are all present produces an
output record exactly when the classifier finds at least one keyword
in the combined title-plus-description text. -/
theorem claim_C9_filter (ner : String → Finset String) (cities : Finset String)
    (url : String) (e : RawEntry) (t d lk pd : String)
    (h1 : e.title = some t) (h2 : e.description = some d)
    (h3 : e.link = some lk) (h4 : e.pubDate = some pd) :
    ((processEntry_CURR ner cities url e).isSome =
      is_disaster_related_CURR (stripStr t ++ " " ++ stripStr d)) ∧
    ((processEntry_check ner cities url e).isSome =
      is_disaster_related_check (stripStr t ++ " " ++ stripStr d)) := by
  constructor
  · unfold processEntry_CURR
    rw [h1, h2]
    by_cases hrel : is_disaster_related_CURR (stripStr t ++ " " ++ stripStr d)
    · simp [hrel, h3, h4]
    · simp only [Bool.not_eq_true] at hrel
      simp [hrel]
  · unfold processEntry_check
    rw [h1, h2]
    by_cases hrel : is_disaster_related_check (stripStr t ++ " " ++ stripStr d)
    · simp [hrel]
    · simp only [Bool.not_eq_true] at hrel
      simp [hrel]

theorem claim_C9_filter_witness :
    ((processEntry_CURR (fun _ => ∅) ∅ "u"
        ⟨some "Cyclone hits Odisha", some "Evacuation has begun", some "l", some "p"⟩).isSome =
      is_disaster_related_CURR
        (stripStr "Cyclone hits Odisha" ++ " " ++ stripStr "Evacuation has begun")) ∧
    ((processEntry_check (fun _ => ∅) ∅ "u"
        ⟨some "Cyclone hits Odisha", some "Evacuation has begun", some "l", some "p"⟩).isSome =
      is_disaster_related_check
        (stripStr "Cyclone hits Odisha" ++ " " ++ stripStr "Evacuation has begun")) :=
  claim_C9_filter (fun _ => ∅) ∅ "u" _ "Cyclone hits Odisha" "Evacuation has begun"
    "l" "p" rfl rfl rfl rfl
